import Mathlib

/-!
Shallow embedding of the EvoArena core contracts (EvoPool, AgentController,
EpochManager, Solidity 0.8.x) and verification of the specification claims
about them.

Modelling conventions:
* `uint256` values are modelled as `Nat`; Solidity 0.8 checked arithmetic is
  modelled by explicit guards (`chk`): any addition/multiplication whose result
  would reach `2^256`, any subtraction that would underflow, and any division
  by zero aborts the transaction with `Err.arithPanic`, exactly as the EVM
  does.  The single `unchecked` block (the TWAP accumulator) is modelled with
  explicit wrap-around `% 2^256` / `% 2^32`.
* Counters that increase by at most one per transaction (`tradeCount`,
  `currentEpochId`, `updateCount`, `epochsWon`, `epochsParticipated`,
  `proposalCount`) cannot reach `2^256` in any reachable state; they are
  modelled with plain `Nat` addition.
* Addresses are modelled as `Nat` (`0` is `address(0)`).
* Fallible external entry points return `Except Err α`: an `Except.error`
  result is a reverted transaction, i.e. no state change at all.
* ERC-20 token transfers are external calls.  Balance-diff accounting in
  `swap`/`addLiquidity` is modelled by passing the measured received amounts
  (`actualIn`, `actual0`, `actual1`) as parameters; for a standard token they
  equal the requested amounts, for a fee-on-transfer token they may be smaller.
-/

namespace EvoArena

/-- Word bound of the EVM: all uint256 arithmetic is checked against this. -/
def W : Nat := 2 ^ 256

/-- UQ112x112 fixed-point scale used by the TWAP oracle. -/
def Q112 : Nat := 2 ^ 112

/-- MAX_FEE_BPS from EvoPool / AgentController. -/
def MAX_FEE_BPS : Nat := 500

/-- MAX_PROTOCOL_FEE_BPS from EvoPool. -/
def MAX_PROTOCOL_FEE_BPS : Nat := 2000

/-- BETA_SCALE from EvoPool: curveBeta is scaled by 10000. -/
def BETA_SCALE : Nat := 10000

/-- MINIMUM_LIQUIDITY from EvoPool. -/
def MINIMUM_LIQUIDITY : Nat := 1000

/-- Revert reasons of the three core contracts.  `arithPanic` stands for the
Solidity 0.8 checked-arithmetic panic (overflow, underflow, division by zero),
`emptyRevert` for a bare `revert()`, `onlyOwner` for the Ownable guard. -/
inductive Err where
  | ZeroAmount
  | InsufficientOutput
  | InsufficientLiquidity
  | InvalidTokens
  | OnlyController
  | FeeTooHigh
  | InvalidCurveMode
  | ProtocolFeeTooHigh
  | PoolPaused
  | NotRegistered
  | AlreadyRegistered
  | BondTooLow
  | CooldownActive
  | DeltaExceedsLimit
  | CtrlPaused
  | InsufficientSlashAmount
  | StillActive
  | EpochNotActive
  | AlreadyProposed
  | AlreadyFinalized
  | NotScorer
  | NoProposals
  | InvalidScoreCount
  | NothingToClaim
  | AgentNotRegistered
  | onlyOwner
  | emptyRevert
  | arithPanic
deriving DecidableEq

/-- Guard for Solidity 0.8 checked arithmetic: continue with `k` if `cond`
holds, otherwise revert with an arithmetic panic. -/
def chk {α : Type} (cond : Prop) [Decidable cond] (k : Except Err α) : Except Err α :=
  if cond then k else .error .arithPanic

/-- Guard for a named require/revert: continue only if `cond` holds,
otherwise revert with `e`. -/
def require (cond : Prop) [Decidable cond] (e : Err) : Except Err Unit :=
  if cond then .ok () else .error e

/-- Sequencing of fallible steps (Except bind, kept as its own definition so
proofs can treat it as a single opaque combinator). -/
def seqE {α β : Type} (x : Except Err α) (f : α → Except Err β) : Except Err β :=
  match x with
  | .error e => .error e
  | .ok a => f a

/-- Pointwise update of a Solidity mapping modelled as a function. -/
def mapUpd {β : Type} (f : Nat → β) (k : Nat) (v : β) : Nat → β :=
  fun x => if x = k then v else f x

/-- Absolute difference as computed by the source's conditional expressions
(x > y ? x - y : y - x). -/
def diffAbs (x y : Nat) : Nat :=
  if x > y then x - y else y - x

/-! ## EvoPool state -/

/-- Storage of the EvoPool contract.  LP shares (the ERC-20 the pool itself
issues) are modelled by `lpTotalSupply` and the balance mapping `lpBalances`. -/
structure Pool where
  token0 : Nat := 0
  token1 : Nat := 0
  reserve0 : Nat := 0
  reserve1 : Nat := 0
  feeBps : Nat := 0
  curveBeta : Nat := 0
  curveMode : Nat := 0
  controller : Nat := 0
  epochManager : Nat := 0
  owner : Nat := 0
  treasury : Nat := 0
  tradeCount : Nat := 0
  cumulativeVolume0 : Nat := 0
  cumulativeVolume1 : Nat := 0
  price0CumulativeLast : Nat := 0
  price1CumulativeLast : Nat := 0
  blockTimestampLast : Nat := 0
  protocolFeeBps : Nat := 0
  protocolFeeAccum0 : Nat := 0
  protocolFeeAccum1 : Nat := 0
  parameterUpdateBlock : Nat := 0
  paused : Bool := false
  lpTotalSupply : Nat := 0
  lpBalances : Nat → Nat := fun _ => 0

namespace Pool

/-- EvoPool constructor. -/
def init (tok0 tok1 initialFeeBps initialCurveBeta ownerAddr : Nat) : Except Err Pool :=
  if tok0 = tok1 ∨ tok0 = 0 ∨ tok1 = 0 then .error .InvalidTokens
  else if initialFeeBps > MAX_FEE_BPS then .error .FeeTooHigh
  else .ok { token0 := tok0, token1 := tok1, feeBps := initialFeeBps,
             curveBeta := initialCurveBeta, curveMode := 0,
             owner := ownerAddr, treasury := ownerAddr }

/-- setController (onlyOwner). -/
def setController (sender ctrl : Nat) (p : Pool) : Except Err Pool :=
  if sender ≠ p.owner then .error .onlyOwner
  else .ok { p with controller := ctrl }

/-- setEpochManager (onlyOwner). -/
def setEpochManager (sender mgr : Nat) (p : Pool) : Except Err Pool :=
  if sender ≠ p.owner then .error .onlyOwner
  else .ok { p with epochManager := mgr }

/-- setProtocolFee (onlyOwner). -/
def setProtocolFee (sender bps : Nat) (p : Pool) : Except Err Pool :=
  if sender ≠ p.owner then .error .onlyOwner
  else if bps > MAX_PROTOCOL_FEE_BPS then .error .ProtocolFeeTooHigh
  else .ok { p with protocolFeeBps := bps }

/-- pause (onlyOwner). -/
def pause (sender : Nat) (p : Pool) : Except Err Pool :=
  if sender ≠ p.owner then .error .onlyOwner else .ok { p with paused := true }

/-- unpause (onlyOwner). -/
def unpause (sender : Nat) (p : Pool) : Except Err Pool :=
  if sender ≠ p.owner then .error .onlyOwner else .ok { p with paused := false }

/-- collectProtocolFees: zeroes both accumulators and transfers them to the
treasury (the transfers are external; the returned pair is what was sent).
Note there is no pause check on this entry point. -/
def collectProtocolFees (p : Pool) : Except Err (Nat × Nat × Pool) :=
  .ok (p.protocolFeeAccum0, p.protocolFeeAccum1,
       { p with protocolFeeAccum0 := 0, protocolFeeAccum1 := 0 })

/-- Internal _updateTWAP.  Runs inside an `unchecked` block: the uint32
subtraction and the uint256 accumulation wrap around. -/
def updateTWAP (ts : Nat) (p : Pool) : Pool :=
  let blockTimestamp := ts % 2 ^ 32
  let timeElapsed := (blockTimestamp + 2 ^ 32 - p.blockTimestampLast) % 2 ^ 32
  if timeElapsed > 0 ∧ p.reserve0 > 0 ∧ p.reserve1 > 0 then
    { p with
      price0CumulativeLast :=
        (p.price0CumulativeLast + (p.reserve1 * Q112 % W / p.reserve0) * timeElapsed) % W,
      price1CumulativeLast :=
        (p.price1CumulativeLast + (p.reserve0 * Q112 % W / p.reserve1) * timeElapsed) % W,
      blockTimestampLast := blockTimestamp }
  else p

/-- Internal _applyCurve: curve-mode adjustment of the effective input amount.
curveMode 0 = Normal, 1 = Defensive, 2 = VolatilityAdaptive. -/
def applyCurve (p : Pool) (amountIn : Nat) (zeroForOne : Bool) : Except Err Nat :=
  if p.curveMode = 0 then .ok amountIn
  else
    let reserveIn := if zeroForOne then p.reserve0 else p.reserve1
    if p.curveMode = 1 then
      chk (amountIn * 10 ^ 18 < W) <|
      chk (reserveIn ≠ 0) <|
      let w := amountIn * 10 ^ 18 / reserveIn
      chk (w * w < W) <|
      let wSquared := w * w / 10 ^ 18
      chk (p.curveBeta * wSquared < W) <|
      let penalty := p.curveBeta * wSquared / 10 ^ 18
      chk (amountIn * penalty < W) <|
      chk (amountIn + amountIn * penalty / BETA_SCALE < W) <|
      .ok (amountIn + amountIn * penalty / BETA_SCALE)
    else
      chk (amountIn * BETA_SCALE < W) <|
      chk (reserveIn ≠ 0) <|
      let r := amountIn * BETA_SCALE / reserveIn
      chk (p.curveBeta * r < W) <|
      let penalty := p.curveBeta * r / (BETA_SCALE * BETA_SCALE)
      chk (amountIn * penalty < W) <|
      chk (amountIn + amountIn * penalty / BETA_SCALE < W) <|
      .ok (amountIn + amountIn * penalty / BETA_SCALE)

/-- Swap fee on the effective input: effectiveIn * feeBps / 10000. -/
def feeAmountOf (p1 : Pool) (effectiveIn : Nat) : Nat :=
  effectiveIn * p1.feeBps / 10000

/-- Effective input net of the swap fee. -/
def afterFeeOf (p1 : Pool) (effectiveIn : Nat) : Nat :=
  effectiveIn - feeAmountOf p1 effectiveIn

/-- Protocol fee: fraction of the swap fee, zero when disabled. -/
def protocolFeeOf (p1 : Pool) (feeAmount : Nat) : Nat :=
  if p1.protocolFeeBps > 0 ∧ feeAmount > 0 then feeAmount * p1.protocolFeeBps / 10000
  else 0

/-- Input-side reserve selector. -/
def reserveInOf (p1 : Pool) (zeroForOne : Bool) : Nat :=
  if zeroForOne then p1.reserve0 else p1.reserve1

/-- Output-side reserve selector. -/
def reserveOutOf (p1 : Pool) (zeroForOne : Bool) : Nat :=
  if zeroForOne then p1.reserve1 else p1.reserve0

/-- Constant-product output: reserveOut * a / (reserveIn + a). -/
def amountOutOf (reserveIn reserveOut a : Nat) : Nat :=
  reserveOut * a / (reserveIn + a)

/-- Reserve update and final guards of swap, one branch per direction
(mirrors the two arms of the reserve-update if/else in the source). -/
def swapFinish (p1 : Pool) (zeroForOne : Bool) (actualIn amountOut protocolFee : Nat) :
    Except Err (Nat × Pool) :=
  if zeroForOne then
    seqE (require (p1.reserve0 + actualIn < W) .arithPanic) fun _ =>
    seqE (require (amountOut ≤ p1.reserve1) .arithPanic) fun _ =>
    seqE (require (protocolFee = 0 ∨ p1.protocolFeeAccum0 + protocolFee < W) .arithPanic) fun _ =>
    seqE (require (protocolFee = 0 ∨ protocolFee ≤ p1.reserve0 + actualIn) .arithPanic) fun _ =>
    seqE (require (p1.cumulativeVolume0 + actualIn < W) .arithPanic) fun _ =>
    .ok (amountOut,
      { p1 with
        reserve0 := p1.reserve0 + actualIn - protocolFee,
        reserve1 := p1.reserve1 - amountOut,
        protocolFeeAccum0 := p1.protocolFeeAccum0 + protocolFee,
        tradeCount := p1.tradeCount + 1,
        cumulativeVolume0 := p1.cumulativeVolume0 + actualIn })
  else
    seqE (require (p1.reserve1 + actualIn < W) .arithPanic) fun _ =>
    seqE (require (amountOut ≤ p1.reserve0) .arithPanic) fun _ =>
    seqE (require (protocolFee = 0 ∨ p1.protocolFeeAccum1 + protocolFee < W) .arithPanic) fun _ =>
    seqE (require (protocolFee = 0 ∨ protocolFee ≤ p1.reserve1 + actualIn) .arithPanic) fun _ =>
    seqE (require (p1.cumulativeVolume1 + actualIn < W) .arithPanic) fun _ =>
    .ok (amountOut,
      { p1 with
        reserve1 := p1.reserve1 + actualIn - protocolFee,
        reserve0 := p1.reserve0 - amountOut,
        protocolFeeAccum1 := p1.protocolFeeAccum1 + protocolFee,
        tradeCount := p1.tradeCount + 1,
        cumulativeVolume1 := p1.cumulativeVolume1 + actualIn })

/-- swap entry point.  `actualIn` is the balance difference measured after the
input transfer (equal to `amountIn` for a standard ERC-20).  Returns the
output amount together with the post-state.  Written as a chain of
require-guards followed by the state update, mirroring the source's
sequence of revert checks. -/
def swap (_sender : Nat) (ts : Nat) (zeroForOne : Bool)
    (amountIn minAmountOut actualIn : Nat) (p : Pool) : Except Err (Nat × Pool) :=
  seqE (require (¬ p.paused = true) .PoolPaused) fun _ =>
  seqE (require (¬ amountIn = 0) .ZeroAmount) fun _ =>
  seqE (require (¬ (p.reserve0 = 0 ∨ p.reserve1 = 0)) .InsufficientLiquidity) fun _ =>
  let p1 := updateTWAP ts p
  seqE (applyCurve p1 actualIn zeroForOne) fun effectiveIn =>
  let feeAmount := feeAmountOf p1 effectiveIn
  let amountInAfterFee := afterFeeOf p1 effectiveIn
  let protocolFee := protocolFeeOf p1 feeAmount
  let reserveIn := reserveInOf p1 zeroForOne
  let reserveOut := reserveOutOf p1 zeroForOne
  let amountOut := amountOutOf reserveIn reserveOut amountInAfterFee
  seqE (require (effectiveIn * p1.feeBps < W) .arithPanic) fun _ =>
  seqE (require (feeAmount ≤ effectiveIn) .arithPanic) fun _ =>
  seqE (require (¬ (p1.protocolFeeBps > 0 ∧ feeAmount > 0) ∨
            feeAmount * p1.protocolFeeBps < W) .arithPanic) fun _ =>
  seqE (require (reserveOut * amountInAfterFee < W) .arithPanic) fun _ =>
  seqE (require (reserveIn + amountInAfterFee < W) .arithPanic) fun _ =>
  seqE (require (¬ reserveIn + amountInAfterFee = 0) .arithPanic) fun _ =>
  seqE (require (¬ amountOut < minAmountOut) .InsufficientOutput) fun _ =>
  swapFinish p1 zeroForOne actualIn amountOut protocolFee

/-- updateParameters entry point (onlyController: AgentController or
EpochManager). -/
def updateParameters (sender : Nat) (newFeeBps newCurveBeta newCurveMode _agent : Nat)
    (blockNumber : Nat) (p : Pool) : Except Err Pool :=
  if sender ≠ p.controller ∧ sender ≠ p.epochManager then .error .OnlyController
  else if newFeeBps > MAX_FEE_BPS then .error .FeeTooHigh
  else if newCurveMode > 2 then .error .InvalidCurveMode
  else .ok { p with feeBps := newFeeBps, curveBeta := newCurveBeta,
                    curveMode := newCurveMode, parameterUpdateBlock := blockNumber }

/-- Babylonian integer square root loop of EvoPool._sqrt, with explicit fuel
(the iteration strictly decreases `z`, so `y + 1` steps always suffice). -/
def sqrtLoop : Nat → Nat → Nat → Nat → Nat
  | 0, _, z, _ => z
  | fuel + 1, y, z, x => if x < z then sqrtLoop fuel y x ((y / x + x) / 2) else z

/-- EvoPool._sqrt. -/
def sqrtSol (y : Nat) : Nat :=
  if y > 3 then sqrtLoop (y + 1) y y (y / 2 + 1)
  else if y ≠ 0 then 1 else 0

/-- addLiquidity entry point.  `actual0`/`actual1` are the balance differences
measured after the two input transfers. -/
def addLiquidity (sender ts amount0 amount1 actual0 actual1 : Nat) (p : Pool) :
    Except Err (Nat × Pool) :=
  if p.paused then .error .PoolPaused
  else if amount0 = 0 ∨ amount1 = 0 then .error .ZeroAmount
  else
    let p1 := updateTWAP ts p
    if p1.lpTotalSupply = 0 then
      chk (actual0 * actual1 < W) <|
      chk (MINIMUM_LIQUIDITY ≤ sqrtSol (actual0 * actual1)) <|
      let liquidity := sqrtSol (actual0 * actual1) - MINIMUM_LIQUIDITY
      if liquidity = 0 then .error .InsufficientLiquidity
      else
        chk (p1.reserve0 + actual0 < W) <|
        chk (p1.reserve1 + actual1 < W) <|
        .ok (liquidity,
          { p1 with
            lpTotalSupply := MINIMUM_LIQUIDITY + liquidity,
            lpBalances := mapUpd (mapUpd p1.lpBalances 1 (p1.lpBalances 1 + MINIMUM_LIQUIDITY))
              sender ((mapUpd p1.lpBalances 1 (p1.lpBalances 1 + MINIMUM_LIQUIDITY)) sender + liquidity),
            reserve0 := p1.reserve0 + actual0,
            reserve1 := p1.reserve1 + actual1 })
    else
      chk (actual0 * p1.lpTotalSupply < W) <|
      chk (p1.reserve0 ≠ 0) <|
      chk (actual1 * p1.lpTotalSupply < W) <|
      chk (p1.reserve1 ≠ 0) <|
      let liq0 := actual0 * p1.lpTotalSupply / p1.reserve0
      let liq1 := actual1 * p1.lpTotalSupply / p1.reserve1
      let liquidity := if liq0 < liq1 then liq0 else liq1
      if liquidity = 0 then .error .InsufficientLiquidity
      else
        chk (p1.lpTotalSupply + liquidity < W) <|
        chk (p1.reserve0 + actual0 < W) <|
        chk (p1.reserve1 + actual1 < W) <|
        .ok (liquidity,
          { p1 with
            lpTotalSupply := p1.lpTotalSupply + liquidity,
            lpBalances := mapUpd p1.lpBalances sender (p1.lpBalances sender + liquidity),
            reserve0 := p1.reserve0 + actual0,
            reserve1 := p1.reserve1 + actual1 })

/-- removeLiquidity entry point.  Note there is no pause check on this entry
point — only `nonReentrant`. -/
def removeLiquidity (sender ts liquidity : Nat) (p : Pool) :
    Except Err (Nat × Nat × Pool) :=
  if liquidity = 0 then .error .ZeroAmount
  else if p.lpBalances sender < liquidity then .error .InsufficientLiquidity
  else
    let p1 := updateTWAP ts p
    chk (liquidity * p1.reserve0 < W) <|
    chk (liquidity * p1.reserve1 < W) <|
    chk (p1.lpTotalSupply ≠ 0) <|
    let amount0 := liquidity * p1.reserve0 / p1.lpTotalSupply
    let amount1 := liquidity * p1.reserve1 / p1.lpTotalSupply
    if amount0 = 0 ∨ amount1 = 0 then .error .InsufficientLiquidity
    else
      chk (amount0 ≤ p1.reserve0) <|
      chk (amount1 ≤ p1.reserve1) <|
      chk (liquidity ≤ p1.lpTotalSupply) <|
      .ok (amount0, amount1,
        { p1 with
          lpTotalSupply := p1.lpTotalSupply - liquidity,
          lpBalances := mapUpd p1.lpBalances sender (p1.lpBalances sender - liquidity),
          reserve0 := p1.reserve0 - amount0,
          reserve1 := p1.reserve1 - amount1 })

end Pool

/-- State shape produced by a successful updateParameters call. -/
def Pool.afterUpdateParameters (p : Pool) (f b m bn : Nat) : Pool :=
  { p with feeBps := f, curveBeta := b, curveMode := m, parameterUpdateBlock := bn }

/-! ## AgentController state -/

/-- AgentInfo struct of the AgentController. -/
structure AgentInfo where
  agentAddress : Nat := 0
  bondAmount : Nat := 0
  tokenBondAmount : Nat := 0
  registeredAt : Nat := 0
  lastUpdateTime : Nat := 0
  active : Bool := false

/-- Storage of the AgentController contract. -/
structure Ctrl where
  selfAddr : Nat := 0
  owner : Nat := 0
  minBond : Nat := 0
  cooldownSeconds : Nat := 0
  maxFeeDelta : Nat := 0
  maxBetaDelta : Nat := 0
  agents : Nat → AgentInfo := fun _ => {}
  agentList : List Nat := []
  updateCount : Nat → Nat := fun _ => 0
  paused : Bool := false

namespace Ctrl

/-- registerAgent entry point: `msgValue` is the native bond sent along. -/
def registerAgent (sender msgValue ts : Nat) (c : Ctrl) : Except Err Ctrl :=
  if c.paused then .error .CtrlPaused
  else if (c.agents sender).active then .error .AlreadyRegistered
  else if msgValue < c.minBond then .error .BondTooLow
  else .ok { c with
    agents := mapUpd c.agents sender
      { agentAddress := sender, bondAmount := msgValue, tokenBondAmount := 0,
        registeredAt := ts, lastUpdateTime := 0, active := true },
    agentList := c.agentList ++ [sender] }

/-- deregisterAgent entry point: clears `active` and the native bond, keeps
the rest of the record (in particular `lastUpdateTime` and any token bond). -/
def deregisterAgent (sender : Nat) (c : Ctrl) : Except Err Ctrl :=
  if c.paused then .error .CtrlPaused
  else if ¬(c.agents sender).active then .error .NotRegistered
  else .ok { c with
    agents := mapUpd c.agents sender
      { c.agents sender with active := false, bondAmount := 0 } }

/-- submitParameterUpdate entry point.  Reads the pool's current parameters
for the delta checks and forwards the update to `Pool.updateParameters` with
the controller contract (`c.selfAddr`) as caller.  The first guard after the
registration check models the Solidity checked addition
`lastUpdateTime + cooldownSeconds`, which is evaluated (and can panic) only
when `lastUpdateTime != 0`. -/
def submitParameterUpdate (sender ts : Nat)
    (newFeeBps newCurveBeta newCurveMode : Nat)
    (blockNumber : Nat) (c : Ctrl) (p : Pool) : Except Err (Ctrl × Pool) :=
  seqE (require (¬ c.paused = true) .CtrlPaused) fun _ =>
  seqE (require ((c.agents sender).active = true) .NotRegistered) fun _ =>
  seqE (require ((c.agents sender).lastUpdateTime = 0 ∨
        (c.agents sender).lastUpdateTime + c.cooldownSeconds < W) .arithPanic) fun _ =>
  seqE (require (¬ ((c.agents sender).lastUpdateTime ≠ 0 ∧
        ts < (c.agents sender).lastUpdateTime + c.cooldownSeconds)) .CooldownActive) fun _ =>
  seqE (require (¬ newFeeBps > MAX_FEE_BPS) .FeeTooHigh) fun _ =>
  seqE (require (¬ newCurveMode > 2) .InvalidCurveMode) fun _ =>
  seqE (require (¬ diffAbs newFeeBps p.feeBps > c.maxFeeDelta) .DeltaExceedsLimit) fun _ =>
  seqE (require (¬ diffAbs newCurveBeta p.curveBeta > c.maxBetaDelta) .DeltaExceedsLimit) fun _ =>
  seqE (Pool.updateParameters c.selfAddr newFeeBps newCurveBeta newCurveMode
          sender blockNumber p) fun p2 =>
  .ok ({ c with
         agents := mapUpd c.agents sender
           { c.agents sender with lastUpdateTime := ts },
         updateCount := mapUpd c.updateCount sender (c.updateCount sender + 1) },
       p2)

/-- State shape produced by a successful registerAgent call. -/
def afterRegister (c : Ctrl) (sender msgValue ts : Nat) : Ctrl :=
  { c with
    agents := mapUpd c.agents sender
      { agentAddress := sender, bondAmount := msgValue, tokenBondAmount := 0,
        registeredAt := ts, lastUpdateTime := 0, active := true },
    agentList := c.agentList ++ [sender] }

/-- State shape produced by a successful deregisterAgent call. -/
def afterDeregister (c : Ctrl) (sender : Nat) : Ctrl :=
  { c with
    agents := mapUpd c.agents sender
      { c.agents sender with active := false, bondAmount := 0 } }

/-- Controller state shape produced by a successful submitParameterUpdate. -/
def afterSubmit (c : Ctrl) (sender ts : Nat) : Ctrl :=
  { c with
    agents := mapUpd c.agents sender
      { c.agents sender with lastUpdateTime := ts },
    updateCount := mapUpd c.updateCount sender (c.updateCount sender + 1) }

/-- slashAgent entry point (onlyOwner). -/
def slashAgent (sender agent amount : Nat) (c : Ctrl) : Except Err Ctrl :=
  if sender ≠ c.owner then .error .onlyOwner
  else if ¬(c.agents agent).active then .error .NotRegistered
  else if amount > (c.agents agent).bondAmount then .error .InsufficientSlashAmount
  else .ok { c with
    agents := mapUpd c.agents agent
      { c.agents agent with bondAmount := (c.agents agent).bondAmount - amount } }

end Ctrl

/-! ## EpochManager state -/

/-- EpochData struct of the EpochManager. -/
structure EpochData where
  epochId : Nat := 0
  startTime : Nat := 0
  endTime : Nat := 0
  winner : Nat := 0
  winnerScore : Nat := 0
  proposalCount : Nat := 0
  finalized : Bool := false
deriving DecidableEq

/-- Proposal struct of the EpochManager. -/
structure Proposal where
  agent : Nat := 0
  feeBps : Nat := 0
  curveBeta : Nat := 0
  curveMode : Nat := 0
  timestamp : Nat := 0
deriving DecidableEq

/-- Storage of the EpochManager contract. -/
structure Mgr where
  selfAddr : Nat := 0
  owner : Nat := 0
  agentController : Nat := 0
  epochDuration : Nat := 0
  currentEpochId : Nat := 0
  epochStartTime : Nat := 0
  scorer : Nat := 0
  epochs : Nat → EpochData := fun _ => {}
  epochProposals : Nat → List Proposal := fun _ => []
  hasProposed : Nat → Nat → Bool := fun _ _ => false
  agentScores : Nat → Nat → Nat := fun _ _ => 0
  epochAgents : Nat → List Nat := fun _ => []
  epochRewardAmount : Nat := 0
  rewardClaimed : Nat → Nat → Bool := fun _ _ => false
  totalScore : Nat → Nat := fun _ => 0
  epochsWon : Nat → Nat := fun _ => 0
  epochsParticipated : Nat → Nat := fun _ => 0

namespace Mgr

/-- EpochManager constructor: opens epoch 1 at deployment time `ts`. -/
def init (self _poolAddr ctrlAddr epochDuration scorerAddr ownerAddr ts : Nat) : Mgr :=
  { selfAddr := self, owner := ownerAddr, agentController := ctrlAddr,
    epochDuration := epochDuration, currentEpochId := 1, epochStartTime := ts,
    scorer := scorerAddr,
    epochs := mapUpd (fun _ => {}) 1
      { epochId := 1, startTime := ts, endTime := ts + epochDuration,
        winner := 0, winnerScore := 0, proposalCount := 0, finalized := false } }

/-- Internal _startNextEpoch. -/
def startNextEpoch (ts : Nat) (m : Mgr) : Mgr :=
  let nextId := m.currentEpochId + 1
  { m with
    currentEpochId := nextId,
    epochStartTime := ts,
    epochs := mapUpd m.epochs nextId
      { epochId := nextId, startTime := ts, endTime := ts + m.epochDuration,
        winner := 0, winnerScore := 0, proposalCount := 0, finalized := false } }

/-- Internal _checkAndAdvanceEpoch: if the current epoch has ended with zero
proposals and is not finalized, mark it finalized and open the next epoch. -/
def checkAndAdvanceEpoch (ts : Nat) (m : Mgr) : Mgr :=
  let ep := m.epochs m.currentEpochId
  if ts ≥ ep.endTime ∧ ep.finalized = false ∧ ep.proposalCount = 0 then
    startNextEpoch ts
      { m with epochs := mapUpd m.epochs m.currentEpochId { ep with finalized := true } }
  else m

/-- submitProposal entry point.  `activeAgent` is the AgentController's view
of which addresses are currently active registered agents
(`getAgentInfo(sender).active`). -/
def submitProposal (sender ts : Nat) (feeBps curveBeta curveMode : Nat)
    (activeAgent : Nat → Bool) (m0 : Mgr) : Except Err Mgr :=
  let m := checkAndAdvanceEpoch ts m0
  let eid := m.currentEpochId
  seqE (require (¬ ts ≥ (m.epochs eid).endTime) .EpochNotActive) fun _ =>
  seqE (require (¬ m.hasProposed eid sender = true) .AlreadyProposed) fun _ =>
  seqE (require (activeAgent sender = true) .AgentNotRegistered) fun _ =>
  seqE (require (¬ feeBps > 500) .emptyRevert) fun _ =>
  seqE (require (¬ curveMode > 2) .emptyRevert) fun _ =>
  .ok { m with
    epochProposals := mapUpd m.epochProposals eid (m.epochProposals eid ++
      [{ agent := sender, feeBps := feeBps, curveBeta := curveBeta,
         curveMode := curveMode, timestamp := ts }]),
    hasProposed := mapUpd m.hasProposed eid (mapUpd (m.hasProposed eid) sender true),
    epochAgents := mapUpd m.epochAgents eid (m.epochAgents eid ++ [sender]),
    epochs := mapUpd m.epochs eid
      { m.epochs eid with proposalCount := (m.epochs eid).proposalCount + 1 },
    epochsParticipated := mapUpd m.epochsParticipated sender
      (m.epochsParticipated sender + 1) }

/-- Score-recording loop of finalizeEpoch: records each score, accumulates
lifetime totals (checked uint256 addition), and tracks the best agent under
strict greater-than comparison. -/
def scoreLoop (eid : Nat) : List (Nat × Nat) → Mgr → Nat → Nat →
    Except Err (Mgr × Nat × Nat)
  | [], m, bestAgent, bestScore => .ok (m, bestAgent, bestScore)
  | (a, s) :: rest, m, bestAgent, bestScore =>
    seqE (require (m.totalScore a + s < W) .arithPanic) fun _ =>
    let m2 := { m with
      agentScores := mapUpd m.agentScores eid (mapUpd (m.agentScores eid) a s),
      totalScore := mapUpd m.totalScore a (m.totalScore a + s) }
    if s > bestScore then scoreLoop eid rest m2 a s
    else scoreLoop eid rest m2 bestAgent bestScore

/-- First proposal of the given agent in the list (the loop in finalizeEpoch
stops at the first match). -/
def findProposal (best : Nat) : List Proposal → Option Proposal
  | [] => none
  | p :: rest => if p.agent = best then some p else findProposal best rest

/-- finalizeEpoch entry point (onlyScorer).  Note: the code checks only that
the caller is the scorer, that the epoch is not yet finalized, that it has
proposals, and that the two arrays have length equal to the proposal count.
It does not compare the provided agents with the epoch's proposers and it
does not check the epoch's endTime (the declared EpochStillActive error is
never raised). -/
def finalizeEpoch (sender ts epochId : Nat)
    (agents : List Nat) (scores : List Nat)
    (blockNumber : Nat) (m : Mgr) (p : Pool) : Except Err (Mgr × Pool) :=
  seqE (require (sender = m.scorer) .NotScorer) fun _ =>
  seqE (require (¬ (m.epochs epochId).finalized = true) .AlreadyFinalized) fun _ =>
  seqE (require (¬ (m.epochs epochId).proposalCount = 0) .NoProposals) fun _ =>
  seqE (require (agents.length = scores.length) .InvalidScoreCount) fun _ =>
  seqE (require (agents.length = (m.epochs epochId).proposalCount) .InvalidScoreCount) fun _ =>
  seqE (scoreLoop epochId (agents.zip scores) m 0 0) fun res =>
  let m2 := res.1
  let bestAgent := res.2.1
  let bestScore := res.2.2
  let m3 := { m2 with
    epochs := mapUpd m2.epochs epochId
      { m2.epochs epochId with
        winner := bestAgent, winnerScore := bestScore, finalized := true },
    epochsWon := mapUpd m2.epochsWon bestAgent (m2.epochsWon bestAgent + 1) }
  match findProposal bestAgent (m3.epochProposals epochId) with
  | none => .ok (startNextEpoch ts m3, p)
  | some pr =>
    seqE (Pool.updateParameters m3.selfAddr pr.feeBps pr.curveBeta pr.curveMode
            bestAgent blockNumber p) fun p2 =>
    .ok (startNextEpoch ts m3, p2)

/-- claimReward entry point. -/
def claimReward (sender epochId : Nat) (m : Mgr) : Except Err Mgr :=
  let ep := m.epochs epochId
  if ep.finalized = false then .error .EpochNotActive
  else if ep.winner ≠ sender then .error .NothingToClaim
  else if m.rewardClaimed epochId sender then .error .NothingToClaim
  else if m.epochRewardAmount = 0 then .error .NothingToClaim
  else .ok { m with
    rewardClaimed := mapUpd m.rewardClaimed epochId
      (mapUpd (m.rewardClaimed epochId) sender true) }

end Mgr

/-! ## Result extractors (projections of transaction results, used to state
concrete evaluations without needing decidable equality of whole states) -/

/-- Product of reserves after a successful swap. -/
def okSwapK (r : Except Err (Nat × Pool)) : Option Nat :=
  r.toOption.map fun x => x.2.reserve0 * x.2.reserve1

/-- Output amount of a successful swap. -/
def okSwapOut (r : Except Err (Nat × Pool)) : Option Nat :=
  r.toOption.map fun x => x.1

/-- reserve0 after a successful swap. -/
def okSwapR0 (r : Except Err (Nat × Pool)) : Option Nat :=
  r.toOption.map fun x => x.2.reserve0

/-- reserve1 after a successful swap. -/
def okSwapR1 (r : Except Err (Nat × Pool)) : Option Nat :=
  r.toOption.map fun x => x.2.reserve1

/-- protocolFeeAccum0 after a successful swap. -/
def okSwapAcc0 (r : Except Err (Nat × Pool)) : Option Nat :=
  r.toOption.map fun x => x.2.protocolFeeAccum0

/-- Product of reserves of a successfully built pool state. -/
def okPoolK (r : Except Err Pool) : Option Nat :=
  r.toOption.map fun p => p.reserve0 * p.reserve1

/-- Pause flag of a successfully built pool state. -/
def okPoolPaused (r : Except Err Pool) : Option Bool :=
  r.toOption.map fun p => p.paused

/-- feeBps of a successfully built pool state. -/
def okPoolFee (r : Except Err Pool) : Option Nat :=
  r.toOption.map fun p => p.feeBps

/-- curveBeta of a successfully built pool state. -/
def okPoolBeta (r : Except Err Pool) : Option Nat :=
  r.toOption.map fun p => p.curveBeta

/-- Returned token amounts of a successful removeLiquidity. -/
def okRemAmounts (r : Except Err (Nat × Nat × Pool)) : Option (Nat × Nat) :=
  r.toOption.map fun x => (x.1, x.2.1)

/-! ## Concrete scenarios -/

/-- Reachable pool state for the C1 failing input: fresh pool (fee 0),
liquidity 100000/100000, then the controller switches it to Defensive mode
with curveBeta 10000 (beta = 1.0). -/
def poolC1 : Except Err Pool := do
  let p0 ← Pool.init 11 12 0 0 9
  let p1 ← Pool.setController 9 7 p0
  let (_, p2) ← Pool.addLiquidity 42 0 100000 100000 100000 100000 p1
  Pool.updateParameters 7 0 10000 1 7 0 p2

/-- Swap of the C1 failing input: sell 100000 of token0 (a whale-sized trade,
whale ratio w = 1) into the Defensive-mode pool. -/
def runC1 : Except Err (Nat × Pool) := do
  let p ← poolC1
  Pool.swap 42 0 true 100000 0 100000 p

/-- Pool state for the C2 failing input: VolatilityAdaptive mode with
curveBeta 10000 (beta = 1.0) and reserve 1000 on the input side. -/
def poolC2 : Pool :=
  { reserve0 := 1000, reserve1 := 1000, feeBps := 0, curveBeta := 10000, curveMode := 2 }

/-- Definition following the spec's words for the VolatilityAdaptive curve
(refinement comparison): effectiveIn = amountIn * (1 + beta * w) with
beta = curveBeta / 10000 and w = amountIn / reserveIn, i.e. in integer form
amountIn + amountIn * curveBeta * amountIn / (BETA_SCALE * reserveIn). -/
def applyCurveSpecLinear (amountIn reserveIn beta : Nat) : Nat :=
  amountIn + amountIn * beta * amountIn / (BETA_SCALE * reserveIn)

/-- Reachable pool state for the C3 counterexample: fee 100 bps, protocol fee
2000 bps of the swap fee, liquidity 1000000/1000000, Normal mode. -/
def poolC3 : Except Err Pool := do
  let p0 ← Pool.init 11 12 100 0 9
  let p1 ← Pool.setProtocolFee 9 2000 p0
  let (_, p2) ← Pool.addLiquidity 42 0 1000000 1000000 1000000 1000000 p1
  pure p2

/-- Swap of the C3 counterexample: sell 100000 of token0 with the protocol
fee enabled. -/
def runC3 : Except Err (Nat × Pool) := do
  let p ← poolC3
  Pool.swap 43 0 true 100000 0 100000 p

/-- Reachable paused pool state for the C6 counterexample: fresh pool with
liquidity 2000/2000 (the LP at address 42 holds 1000 shares), then paused by
the owner. -/
def poolC6 : Except Err Pool := do
  let p0 ← Pool.init 11 12 30 5000 9
  let p1 ← Pool.setController 9 7 p0
  let (_, p2) ← Pool.addLiquidity 42 0 2000 2000 2000 2000 p1
  Pool.pause 9 p2

/-- removeLiquidity called on the paused pool. -/
def removeC6 : Except Err (Nat × Nat × Pool) := do
  let p ← poolC6
  Pool.removeLiquidity 42 0 500 p

/-- updateParameters called by the controller on the paused pool. -/
def updC6 : Except Err Pool := do
  let p ← poolC6
  Pool.updateParameters 7 50 6000 0 7 1 p

/-- collectProtocolFees called on the paused pool. -/
def collectC6 : Except Err (Nat × Nat × Pool) := do
  let p ← poolC6
  Pool.collectProtocolFees p

/-- Winner of an epoch after a successful finalizeEpoch. -/
def okFinWinner (r : Except Err (Mgr × Pool)) (eid : Nat) : Option Nat :=
  r.toOption.map fun x => (x.1.epochs eid).winner

/-- Finalized flag of an epoch after a successful finalizeEpoch. -/
def okFinFinalized (r : Except Err (Mgr × Pool)) (eid : Nat) : Option Bool :=
  r.toOption.map fun x => (x.1.epochs eid).finalized

/-- Proposal count of an epoch after a successful finalizeEpoch. -/
def okFinCount (r : Except Err (Mgr × Pool)) (eid : Nat) : Option Nat :=
  r.toOption.map fun x => (x.1.epochs eid).proposalCount

/-- Proposer list of an epoch after a successful finalizeEpoch. -/
def okFinAgents (r : Except Err (Mgr × Pool)) (eid : Nat) : Option (List Nat) :=
  r.toOption.map fun x => x.1.epochAgents eid

/-- curveBeta of the pool after a successful finalizeEpoch. -/
def okFinPoolBeta (r : Except Err (Mgr × Pool)) : Option Nat :=
  r.toOption.map fun x => x.2.curveBeta

/-- endTime of an epoch in a successfully built manager state. -/
def okMgrEndTime (r : Except Err Mgr) (eid : Nat) : Option Nat :=
  r.toOption.map fun m => (m.epochs eid).endTime

/-- Pool used by the EpochManager scenarios: the manager address 30 is the
pool's authorized epochManager. -/
def poolM : Pool :=
  { reserve0 := 1000, reserve1 := 1000, feeBps := 30, curveBeta := 5000,
    controller := 21, epochManager := 30, owner := 9 }

/-- Manager state at deployment: epoch 1 runs over [0, 1000). -/
def mgrM : Mgr := Mgr.init 30 20 21 1000 8 9 0

/-- Manager after agent 5 proposed (50, 6000, mode 1) at t = 10. -/
def mgrProposed : Except Err Mgr :=
  Mgr.submitProposal 5 10 50 6000 1 (fun a => a == 5) mgrM

/-- finalizeEpoch called by the scorer at t = 20, before epoch 1's endTime
of 1000. -/
def runC4 : Except Err (Mgr × Pool) := do
  let m ← mgrProposed
  Mgr.finalizeEpoch 8 20 1 [5] [100] 0 m poolM

/-- finalizeEpoch called by the scorer after endTime with an agents array
naming 999, who never proposed. -/
def runC5 : Except Err (Mgr × Pool) := do
  let m ← mgrProposed
  Mgr.finalizeEpoch 8 1200 1 [999] [100] 0 m poolM

/-- Manager after agent 5 proposed curveBeta 2^256 - 1 at t = 10. -/
def mgrProposedHuge : Except Err Mgr :=
  Mgr.submitProposal 5 10 50 (W - 1) 1 (fun a => a == 5) mgrM

/-- finalizeEpoch applying the winning proposal with curveBeta 2^256 - 1. -/
def runC9 : Except Err (Mgr × Pool) := do
  let m ← mgrProposedHuge
  Mgr.finalizeEpoch 8 1200 1 [5] [100] 0 m poolM

/-- Concrete pool state used by witnesses: 1000000/1000000 reserves, fee 100
bps, protocol fee 2000 bps of the swap fee, Normal mode. -/
def P3 : Pool :=
  { token0 := 11, token1 := 12, reserve0 := 1000000, reserve1 := 1000000,
    feeBps := 100, protocolFeeBps := 2000, owner := 9, treasury := 9,
    lpTotalSupply := 1000000,
    lpBalances := fun a => if a = 42 then 999000 else if a = 1 then 1000 else 0 }

/-! ## Helper lemmas -/

theorem seqE_ok {α β : Type} {x : Except Err α} {f : α → Except Err β} {b : β} :
    seqE x f = Except.ok b ↔ ∃ a, x = Except.ok a ∧ f a = Except.ok b := by
  cases x <;> simp [seqE]

theorem seqE_err {α β : Type} {x : Except Err α} {f : α → Except Err β} {e : Err}
    (h : x = Except.error e) : seqE x f = Except.error e := by
  rw [h]; rfl

theorem require_ok {c : Prop} [Decidable c] {e : Err} {u : Unit} :
    require c e = Except.ok u ↔ c := by
  unfold require; split <;> simp_all

theorem require_pos {c : Prop} [Decidable c] (h : c) (e : Err) :
    require c e = Except.ok () := by
  unfold require; exact if_pos h

theorem require_neg {c : Prop} [Decidable c] (h : ¬ c) (e : Err) :
    require c e = Except.error e := by
  unfold require; exact if_neg h

theorem chk_pos {α : Type} {c : Prop} [Decidable c] (h : c) (k : Except Err α) :
    chk c k = k := by
  unfold chk; exact if_pos h

theorem seqE_okv {α β : Type} (v : α) (f : α → Except Err β) :
    seqE (Except.ok v) f = f v := rfl

theorem seqE_error {α β : Type} (e : Err) (f : α → Except Err β) :
    seqE (Except.error e) f = Except.error e := rfl

theorem updateParameters_ok (p : Pool) (sender f b m agent bn : Nat)
    (hauth : ¬ (sender ≠ p.controller ∧ sender ≠ p.epochManager))
    (hfee : ¬ f > MAX_FEE_BPS) (hmode : ¬ m > 2) :
    Pool.updateParameters sender f b m agent bn p =
      .ok (p.afterUpdateParameters f b m bn) := by
  simp only [Pool.updateParameters, Pool.afterUpdateParameters]
  rw [if_neg hauth, if_neg hfee, if_neg hmode]

theorem submitParameterUpdate_ok (c : Ctrl) (p : Pool) (sender ts f b m bn : Nat)
    (hpause : ¬ c.paused = true)
    (hactive : (c.agents sender).active = true)
    (hoflow : (c.agents sender).lastUpdateTime = 0 ∨
      (c.agents sender).lastUpdateTime + c.cooldownSeconds < W)
    (hcool : ¬ ((c.agents sender).lastUpdateTime ≠ 0 ∧
      ts < (c.agents sender).lastUpdateTime + c.cooldownSeconds))
    (hfee : ¬ f > MAX_FEE_BPS) (hmode : ¬ m > 2)
    (hfd : ¬ diffAbs f p.feeBps > c.maxFeeDelta)
    (hbd : ¬ diffAbs b p.curveBeta > c.maxBetaDelta)
    (hauth : ¬ (c.selfAddr ≠ p.controller ∧ c.selfAddr ≠ p.epochManager)) :
    Ctrl.submitParameterUpdate sender ts f b m bn c p =
      .ok (Ctrl.afterSubmit c sender ts, p.afterUpdateParameters f b m bn) := by
  simp only [Ctrl.afterSubmit]
  simp only [Ctrl.submitParameterUpdate]
  rw [require_pos hpause, seqE_okv]
  rw [require_pos hactive, seqE_okv]
  rw [require_pos hoflow, seqE_okv]
  rw [require_pos hcool, seqE_okv]
  rw [require_pos hfee, seqE_okv]
  rw [require_pos hmode, seqE_okv]
  rw [require_pos hfd, seqE_okv]
  rw [require_pos hbd, seqE_okv]
  rw [updateParameters_ok p c.selfAddr f b m sender bn hauth hfee hmode, seqE_okv]

theorem submitParameterUpdate_feeDelta_err (c : Ctrl) (p : Pool) (sender ts f b m bn : Nat)
    (hpause : ¬ c.paused = true)
    (hactive : (c.agents sender).active = true)
    (hoflow : (c.agents sender).lastUpdateTime = 0 ∨
      (c.agents sender).lastUpdateTime + c.cooldownSeconds < W)
    (hcool : ¬ ((c.agents sender).lastUpdateTime ≠ 0 ∧
      ts < (c.agents sender).lastUpdateTime + c.cooldownSeconds))
    (hfee : ¬ f > MAX_FEE_BPS) (hmode : ¬ m > 2)
    (hfd : diffAbs f p.feeBps > c.maxFeeDelta) :
    Ctrl.submitParameterUpdate sender ts f b m bn c p = .error .DeltaExceedsLimit := by
  simp only [Ctrl.submitParameterUpdate]
  rw [require_pos hpause, seqE_okv]
  rw [require_pos hactive, seqE_okv]
  rw [require_pos hoflow, seqE_okv]
  rw [require_pos hcool, seqE_okv]
  rw [require_pos hfee, seqE_okv]
  rw [require_pos hmode, seqE_okv]
  rw [require_neg (not_not_intro hfd) Err.DeltaExceedsLimit, seqE_error]

theorem submitParameterUpdate_betaDelta_err (c : Ctrl) (p : Pool) (sender ts f b m bn : Nat)
    (hpause : ¬ c.paused = true)
    (hactive : (c.agents sender).active = true)
    (hoflow : (c.agents sender).lastUpdateTime = 0 ∨
      (c.agents sender).lastUpdateTime + c.cooldownSeconds < W)
    (hcool : ¬ ((c.agents sender).lastUpdateTime ≠ 0 ∧
      ts < (c.agents sender).lastUpdateTime + c.cooldownSeconds))
    (hfee : ¬ f > MAX_FEE_BPS) (hmode : ¬ m > 2)
    (hfd : ¬ diffAbs f p.feeBps > c.maxFeeDelta)
    (hbd : diffAbs b p.curveBeta > c.maxBetaDelta) :
    Ctrl.submitParameterUpdate sender ts f b m bn c p = .error .DeltaExceedsLimit := by
  simp only [Ctrl.submitParameterUpdate]
  rw [require_pos hpause, seqE_okv]
  rw [require_pos hactive, seqE_okv]
  rw [require_pos hoflow, seqE_okv]
  rw [require_pos hcool, seqE_okv]
  rw [require_pos hfee, seqE_okv]
  rw [require_pos hmode, seqE_okv]
  rw [require_pos hfd, seqE_okv]
  rw [require_neg (not_not_intro hbd) Err.DeltaExceedsLimit, seqE_error]

theorem registerAgent_ok (c : Ctrl) (sender msgValue ts : Nat)
    (hpause : ¬ c.paused = true)
    (hactive : ¬ (c.agents sender).active = true)
    (hbond : ¬ msgValue < c.minBond) :
    Ctrl.registerAgent sender msgValue ts c =
      .ok (Ctrl.afterRegister c sender msgValue ts) := by
  simp only [Ctrl.registerAgent, Ctrl.afterRegister]
  rw [if_neg hpause, if_neg hactive, if_neg hbond]

theorem deregisterAgent_ok (c : Ctrl) (sender : Nat)
    (hpause : ¬ c.paused = true)
    (hactive : ¬ ¬ (c.agents sender).active = true) :
    Ctrl.deregisterAgent sender c =
      .ok (Ctrl.afterDeregister c sender) := by
  simp only [Ctrl.deregisterAgent, Ctrl.afterDeregister]
  rw [if_neg hpause, if_neg hactive]

theorem updateTWAP_reserve0 (ts : Nat) (p : Pool) :
    (Pool.updateTWAP ts p).reserve0 = p.reserve0 := by
  simp only [Pool.updateTWAP]; split <;> rfl

theorem updateTWAP_reserve1 (ts : Nat) (p : Pool) :
    (Pool.updateTWAP ts p).reserve1 = p.reserve1 := by
  simp only [Pool.updateTWAP]; split <;> rfl

theorem updateTWAP_acc0 (ts : Nat) (p : Pool) :
    (Pool.updateTWAP ts p).protocolFeeAccum0 = p.protocolFeeAccum0 := by
  simp only [Pool.updateTWAP]; split <;> rfl

theorem updateTWAP_acc1 (ts : Nat) (p : Pool) :
    (Pool.updateTWAP ts p).protocolFeeAccum1 = p.protocolFeeAccum1 := by
  simp only [Pool.updateTWAP]; split <;> rfl

/-! ## Claims -/

/-- C1: the claim states that for every successful swap from positive
reserves, reserve0 * reserve1 never decreases, in every curve mode.  The code
violates this: on the reachable Defensive-mode state poolC1 (reserves
100000/100000, curveBeta 10000, fee 0) a swap of 100000 token0 succeeds and
the reserve product drops from 10^10 to 6.6668 * 10^9, because the curve
inflates the priced input (effectiveIn = 200000) while the pool only receives
actualIn = 100000.  This contradicts the repository's own test, which asserts
the product is non-decreasing, and the Defensive mode's stated whale-deterrent
purpose. -/
theorem swap_defensive_invariant_decreases :
    okPoolK poolC1 = some 10000000000 ∧
    okSwapK runC1 = some 6666800000 ∧
    6666800000 < 10000000000 := by
  refine ⟨by decide, by decide, by decide⟩

/-- C2: the claim states that in VolatilityAdaptive mode
effectiveIn = amountIn * (1 + beta * w) up to fixed-point rounding
(beta = curveBeta/10000, w = amountIn/reserveIn).  The code divides the
penalty by an extra factor BETA_SCALE: at amountIn = reserveIn = 1000 and
curveBeta = 10000 (beta = 1, w = 1) the claim and the contract's own doc
comment give effectiveIn = 2000, but _applyCurve returns 1000 (the computed
penalty is 10^4 times too small, far beyond rounding error).  The Defensive
branch is not at fault: the claim fails only on the VolatilityAdaptive
branch. -/
theorem applyCurve_volAdaptive_formula_mismatch :
    (Pool.applyCurve poolC2 1000 true).toOption = some 1000 ∧
    applyCurveSpecLinear 1000 1000 poolC2.curveBeta = 2000 := by
  refine ⟨by decide, by decide⟩

/-- C3 counterexample: the claim states the output-side reserve decreases by
amountOut plus protocolFee and the skim is never taken from the input-side
reserve.  On the reachable state poolC3 (reserves 10^6/10^6, fee 100 bps,
protocol fee 2000 bps of the fee) a swap of 100000 token0 succeeds with
amountOut = 90081 and protocolFee = 200, and afterwards reserve0 =
1099800 = 10^6 + 100000 - 200 (input side, 200 skimmed) while reserve1 =
909919 = 10^6 - 90081 (output side, only amountOut), refuting the claim. -/
theorem swap_protocolFee_skim_cex :
    okSwapOut runC3 = some 90081 ∧
    okSwapR0 runC3 = some 1099800 ∧
    okSwapR1 runC3 = some 909919 ∧
    okSwapAcc0 runC3 = some 200 ∧
    1099800 ≠ 1000000 + 100000 ∧
    909919 = 1000000 - 90081 := by
  refine ⟨by decide, by decide, by decide, by decide, by decide, by decide⟩

/-- C3 amended: in every successful swap there is a protocol-fee skim pf
(zero when the protocol fee is disabled) such that the input-side reserve
increases by the actual received input amount minus pf, pf is added to the
input-side protocol-fee accumulator, and the output-side reserve decreases by
exactly amountOut; the skim is taken from the input-side reserve, never the
output-side one. -/
theorem swap_reserve_accounting (sender ts : Nat) (zeroForOne : Bool)
    (amountIn minAmountOut actualIn : Nat) (p : Pool) (out : Nat) (p2 : Pool)
    (h : Pool.swap sender ts zeroForOne amountIn minAmountOut actualIn p = .ok (out, p2)) :
    ∃ pf,
      (zeroForOne = true →
        p2.protocolFeeAccum0 = p.protocolFeeAccum0 + pf ∧
        p2.reserve0 + pf = p.reserve0 + actualIn ∧
        p2.reserve1 + out = p.reserve1 ∧
        p2.protocolFeeAccum1 = p.protocolFeeAccum1) ∧
      (zeroForOne = false →
        p2.protocolFeeAccum1 = p.protocolFeeAccum1 + pf ∧
        p2.reserve1 + pf = p.reserve1 + actualIn ∧
        p2.reserve0 + out = p.reserve0 ∧
        p2.protocolFeeAccum0 = p.protocolFeeAccum0) := by
  simp only [Pool.swap, seqE_ok, require_ok] at h
  obtain ⟨_, hp, _, hz, _, hl, effIn, hE, _, hfeeW, _, hle, _, hpf, _, houtW,
    _, haddW, _, hne, _, hmin, hfin⟩ := h
  refine ⟨Pool.protocolFeeOf (Pool.updateTWAP ts p)
    (Pool.feeAmountOf (Pool.updateTWAP ts p) effIn), ?_, ?_⟩
  · intro hzf
    subst hzf
    rw [Pool.swapFinish, if_pos rfl] at hfin
    simp only [seqE_ok, require_ok] at hfin
    obtain ⟨_, hr0W, _, hout, _, hacc, _, hskim, _, hvol, hfin⟩ := hfin
    rw [Except.ok.injEq, Prod.mk.injEq] at hfin
    obtain ⟨hOut, hSt⟩ := hfin
    subst hOut
    subst hSt
    simp only [updateTWAP_reserve0, updateTWAP_reserve1] at hout hskim
    refine ⟨?_, ?_, ?_, ?_⟩
    · simp only [updateTWAP_acc0]
    · simp only [updateTWAP_reserve0]; omega
    · simp only [updateTWAP_reserve1]; omega
    · simp only [updateTWAP_acc1]
  · intro hzf
    subst hzf
    rw [Pool.swapFinish, if_neg (by simp)] at hfin
    simp only [seqE_ok, require_ok] at hfin
    obtain ⟨_, hr0W, _, hout, _, hacc, _, hskim, _, hvol, hfin⟩ := hfin
    rw [Except.ok.injEq, Prod.mk.injEq] at hfin
    obtain ⟨hOut, hSt⟩ := hfin
    subst hOut
    subst hSt
    simp only [updateTWAP_reserve0, updateTWAP_reserve1] at hout hskim
    refine ⟨?_, ?_, ?_, ?_⟩
    · simp only [updateTWAP_acc1]
    · simp only [updateTWAP_reserve1]; omega
    · simp only [updateTWAP_reserve0]; omega
    · simp only [updateTWAP_acc0]

/-- C3 amended, witness: the amended accounting theorem applied to the
concrete swap of 100000 token0 on the state P3. -/
theorem swap_reserve_accounting_witness :
    ∃ out p2, Pool.swap 43 0 true 100000 0 100000 P3 = .ok (out, p2) ∧
      ∃ pf, p2.protocolFeeAccum0 = P3.protocolFeeAccum0 + pf ∧
            p2.reserve0 + pf = P3.reserve0 + 100000 ∧
            p2.reserve1 + out = P3.reserve1 := by
  refine ⟨_, _, rfl, ?_⟩
  obtain ⟨pf, h1, -⟩ :=
    swap_reserve_accounting 43 0 true 100000 0 100000 P3 _ _ rfl
  obtain ⟨a, b, c, -⟩ := h1 rfl
  exact ⟨pf, a, b, c⟩

/-- C6 counterexample: the claim states every state-mutating Pool operation is
rejected while paused.  On the reachable paused state poolC6 the operations
removeLiquidity, updateParameters (by the controller) and collectProtocolFees
all succeed — only swap and addLiquidity carry the whenNotPaused guard. -/
theorem paused_pool_not_all_blocked_cex :
    okPoolPaused poolC6 = some true ∧
    okRemAmounts removeC6 = some (500, 500) ∧
    okPoolFee updC6 = some 50 ∧
    collectC6.toOption.isSome = true := by
  refine ⟨by decide, by decide, by decide, by decide⟩

/-- C6 amended: while the pause flag is set, swap and addLiquidity are
rejected with PoolPaused and no state change (removeLiquidity,
updateParameters and collectProtocolFees are not guarded by the pause flag:
see the counterexample). -/
theorem paused_blocks_swap_and_addLiquidity (p : Pool) (h : p.paused = true)
    (zeroForOne : Bool) (sender ts amountIn minAmountOut actualIn : Nat)
    (sender2 ts2 amount0 amount1 actual0 actual1 : Nat) :
    Pool.swap sender ts zeroForOne amountIn minAmountOut actualIn p =
      .error .PoolPaused ∧
    Pool.addLiquidity sender2 ts2 amount0 amount1 actual0 actual1 p =
      .error .PoolPaused := by
  constructor
  · simp only [Pool.swap]
    exact seqE_err (require_neg (by simp [h]) Err.PoolPaused)
  · simp only [Pool.addLiquidity]; rw [if_pos h]

/-- C6 amended, witness: the pause-guard theorem applied to a concrete paused
pool state and concrete call arguments. -/
theorem paused_blocks_swap_and_addLiquidity_witness :
    Pool.swap 1 0 true 5 0 5 { paused := true } = .error .PoolPaused ∧
    Pool.addLiquidity 2 0 5 5 5 5 { paused := true } = .error .PoolPaused :=
  paused_blocks_swap_and_addLiquidity { paused := true } rfl true 1 0 5 0 5 2 0 5 5 5 5


/-- Concrete controller state for witnesses: agent 5 is active with
lastUpdateTime 0, cooldown 100 s, maxFeeDelta 20, maxBetaDelta 500; the
controller contract address is 7. -/
def ctrlW : Ctrl :=
  { selfAddr := 7, owner := 9, minBond := 10, cooldownSeconds := 100,
    maxFeeDelta := 20, maxBetaDelta := 500,
    agents := mapUpd (fun _ => {}) 5
      { agentAddress := 5, bondAmount := 10, tokenBondAmount := 0,
        registeredAt := 0, lastUpdateTime := 0, active := true },
    agentList := [5], updateCount := fun _ => 0, paused := false }

/-- Concrete pool state for controller witnesses: feeBps 30, curveBeta 5000,
controller address 7. -/
def poolW : Pool :=
  { reserve0 := 1000, reserve1 := 1000, feeBps := 30, curveBeta := 5000,
    controller := 7, epochManager := 8, owner := 9 }

/-- C7: for an active, unpaused agent whose cooldown has elapsed (or who has
never updated) and whose proposed fee and mode pass the absolute caps, a
proposal whose fee distance from the pool's current feeBps equals
maxFeeDelta + 1 is rejected with DeltaExceedsLimit (no state change), a
proposal at distance exactly maxFeeDelta succeeds, and likewise for curveBeta
against maxBetaDelta. -/
theorem submitParameterUpdate_delta_boundary (c : Ctrl) (p : Pool) (sender ts bn : Nat)
    (hpause : ¬ c.paused = true)
    (hactive : (c.agents sender).active = true)
    (hoflow : (c.agents sender).lastUpdateTime = 0 ∨
      (c.agents sender).lastUpdateTime + c.cooldownSeconds < W)
    (hcool : ¬ ((c.agents sender).lastUpdateTime ≠ 0 ∧
      ts < (c.agents sender).lastUpdateTime + c.cooldownSeconds))
    (hauth : ¬ (c.selfAddr ≠ p.controller ∧ c.selfAddr ≠ p.epochManager)) :
    (∀ f b m, ¬ f > MAX_FEE_BPS → ¬ m > 2 →
      diffAbs f p.feeBps = c.maxFeeDelta + 1 →
      Ctrl.submitParameterUpdate sender ts f b m bn c p = .error .DeltaExceedsLimit) ∧
    (∀ f b m, ¬ f > MAX_FEE_BPS → ¬ m > 2 →
      diffAbs f p.feeBps = c.maxFeeDelta →
      ¬ diffAbs b p.curveBeta > c.maxBetaDelta →
      ∃ c2 p2, Ctrl.submitParameterUpdate sender ts f b m bn c p = .ok (c2, p2)) ∧
    (∀ f b m, ¬ f > MAX_FEE_BPS → ¬ m > 2 →
      ¬ diffAbs f p.feeBps > c.maxFeeDelta →
      diffAbs b p.curveBeta = c.maxBetaDelta + 1 →
      Ctrl.submitParameterUpdate sender ts f b m bn c p = .error .DeltaExceedsLimit) ∧
    (∀ f b m, ¬ f > MAX_FEE_BPS → ¬ m > 2 →
      ¬ diffAbs f p.feeBps > c.maxFeeDelta →
      diffAbs b p.curveBeta = c.maxBetaDelta →
      ∃ c2 p2, Ctrl.submitParameterUpdate sender ts f b m bn c p = .ok (c2, p2)) := by
  refine ⟨?_, ?_, ?_, ?_⟩
  · intro f b m hfee hmode hfd
    exact submitParameterUpdate_feeDelta_err c p sender ts f b m bn
      hpause hactive hoflow hcool hfee hmode (by omega)
  · intro f b m hfee hmode hfd hbd
    exact ⟨_, _, submitParameterUpdate_ok c p sender ts f b m bn
      hpause hactive hoflow hcool hfee hmode (by omega) hbd hauth⟩
  · intro f b m hfee hmode hfd hbd
    exact submitParameterUpdate_betaDelta_err c p sender ts f b m bn
      hpause hactive hoflow hcool hfee hmode hfd (by omega)
  · intro f b m hfee hmode hfd hbd
    exact ⟨_, _, submitParameterUpdate_ok c p sender ts f b m bn
      hpause hactive hoflow hcool hfee hmode hfd (by omega) hauth⟩

/-- C7, witness: on the concrete state ctrlW/poolW (feeBps 30, maxFeeDelta 20,
curveBeta 5000, maxBetaDelta 500) a proposal of fee 51 is rejected with
DeltaExceedsLimit, fee 50 succeeds, beta 5501 is rejected, and beta 5500
succeeds. -/
theorem submitParameterUpdate_delta_boundary_witness :
    Ctrl.submitParameterUpdate 5 1000 51 5000 0 0 ctrlW poolW =
      .error .DeltaExceedsLimit ∧
    (∃ c2 p2, Ctrl.submitParameterUpdate 5 1000 50 5000 0 0 ctrlW poolW = .ok (c2, p2)) ∧
    Ctrl.submitParameterUpdate 5 1000 30 5501 0 0 ctrlW poolW =
      .error .DeltaExceedsLimit ∧
    (∃ c2 p2, Ctrl.submitParameterUpdate 5 1000 30 5500 0 0 ctrlW poolW = .ok (c2, p2)) := by
  have h := submitParameterUpdate_delta_boundary ctrlW poolW 5 1000 0
    (by decide) (by decide) (Or.inl (by decide)) (by decide) (by decide)
  exact ⟨h.1 51 5000 0 (by decide) (by decide) (by decide),
         h.2.1 50 5000 0 (by decide) (by decide) (by decide) (by decide),
         h.2.2.1 30 5501 0 (by decide) (by decide) (by decide) (by decide),
         h.2.2.2 30 5500 0 (by decide) (by decide) (by decide) (by decide)⟩

/-- C10: registerAgent always initializes the record with lastUpdateTime = 0
(also on re-registration, since it overwrites the whole record), and
submitParameterUpdate skips the cooldown whenever lastUpdateTime = 0, so the
sequence submit / deregister / re-register / submit by one agent succeeds even
when the two submits are separated by less than cooldownSeconds. -/
theorem reregister_bypasses_cooldown (c0 : Ctrl) (p0 : Pool)
    (sender t1 t3 t4 bond bn1 bn2 : Nat)
    (f1 b1 m1 f2 b2 m2 : Nat)
    (hpause : ¬ c0.paused = true)
    (hactive : (c0.agents sender).active = true)
    (hoflow : (c0.agents sender).lastUpdateTime = 0 ∨
      (c0.agents sender).lastUpdateTime + c0.cooldownSeconds < W)
    (hcool : ¬ ((c0.agents sender).lastUpdateTime ≠ 0 ∧
      t1 < (c0.agents sender).lastUpdateTime + c0.cooldownSeconds))
    (hauth : ¬ (c0.selfAddr ≠ p0.controller ∧ c0.selfAddr ≠ p0.epochManager))
    (hfee1 : ¬ f1 > MAX_FEE_BPS) (hmode1 : ¬ m1 > 2)
    (hfd1 : ¬ diffAbs f1 p0.feeBps > c0.maxFeeDelta)
    (hbd1 : ¬ diffAbs b1 p0.curveBeta > c0.maxBetaDelta)
    (hbond : ¬ bond < c0.minBond)
    (hfee2 : ¬ f2 > MAX_FEE_BPS) (hmode2 : ¬ m2 > 2)
    (hfd2 : ¬ diffAbs f2 f1 > c0.maxFeeDelta)
    (hbd2 : ¬ diffAbs b2 b1 > c0.maxBetaDelta)
    (_hlt : t4 < t1 + c0.cooldownSeconds) :
    ∃ c1 p1 c2 c3 c4 p2,
      Ctrl.submitParameterUpdate sender t1 f1 b1 m1 bn1 c0 p0 = .ok (c1, p1) ∧
      Ctrl.deregisterAgent sender c1 = .ok c2 ∧
      Ctrl.registerAgent sender bond t3 c2 = .ok c3 ∧
      (c3.agents sender).lastUpdateTime = 0 ∧
      Ctrl.submitParameterUpdate sender t4 f2 b2 m2 bn2 c3 p1 = .ok (c4, p2) := by
  refine ⟨Ctrl.afterSubmit c0 sender t1, p0.afterUpdateParameters f1 b1 m1 bn1,
    Ctrl.afterDeregister (Ctrl.afterSubmit c0 sender t1) sender,
    Ctrl.afterRegister (Ctrl.afterDeregister (Ctrl.afterSubmit c0 sender t1) sender)
      sender bond t3,
    Ctrl.afterSubmit (Ctrl.afterRegister
      (Ctrl.afterDeregister (Ctrl.afterSubmit c0 sender t1) sender) sender bond t3)
      sender t4,
    (p0.afterUpdateParameters f1 b1 m1 bn1).afterUpdateParameters f2 b2 m2 bn2,
    ?_, ?_, ?_, ?_, ?_⟩
  · exact submitParameterUpdate_ok c0 p0 sender t1 f1 b1 m1 bn1
      hpause hactive hoflow hcool hfee1 hmode1 hfd1 hbd1 hauth
  · exact deregisterAgent_ok _ sender
      (by simpa [Ctrl.afterSubmit] using hpause)
      (by simp [Ctrl.afterSubmit, mapUpd, hactive])
  · exact registerAgent_ok _ sender bond t3
      (by simpa [Ctrl.afterDeregister, Ctrl.afterSubmit] using hpause)
      (by simp [Ctrl.afterDeregister, Ctrl.afterSubmit, mapUpd])
      (by simpa [Ctrl.afterDeregister, Ctrl.afterSubmit] using hbond)
  · simp [Ctrl.afterRegister, mapUpd]
  · exact submitParameterUpdate_ok _ _ sender t4 f2 b2 m2 bn2
      (by simpa [Ctrl.afterRegister, Ctrl.afterDeregister, Ctrl.afterSubmit] using hpause)
      (by simp [Ctrl.afterRegister, mapUpd])
      (Or.inl (by simp [Ctrl.afterRegister, mapUpd]))
      (by simp [Ctrl.afterRegister, mapUpd])
      hfee2 hmode2
      (by simpa [Ctrl.afterRegister, Ctrl.afterDeregister, Ctrl.afterSubmit,
        Pool.afterUpdateParameters] using hfd2)
      (by simpa [Ctrl.afterRegister, Ctrl.afterDeregister, Ctrl.afterSubmit,
        Pool.afterUpdateParameters] using hbd2)
      (by simpa [Ctrl.afterRegister, Ctrl.afterDeregister, Ctrl.afterSubmit,
        Pool.afterUpdateParameters] using hauth)

/-- C10, witness: the bypass sequence applied on the concrete state
ctrlW/poolW with cooldown 100: first update at t = 100, second update at
t = 150 < 100 + 100, both succeed. -/
theorem reregister_bypasses_cooldown_witness :
    ∃ c1 p1 c2 c3 c4 p2,
      Ctrl.submitParameterUpdate 5 100 40 5200 1 0 ctrlW poolW = .ok (c1, p1) ∧
      Ctrl.deregisterAgent 5 c1 = .ok c2 ∧
      Ctrl.registerAgent 5 10 120 c2 = .ok c3 ∧
      (c3.agents 5).lastUpdateTime = 0 ∧
      Ctrl.submitParameterUpdate 5 150 45 5300 2 0 c3 p1 = .ok (c4, p2) :=
  reregister_bypasses_cooldown ctrlW poolW 5 100 120 150 10 0 0 40 5200 1 45 5300 2
    (by decide) (by decide) (Or.inl (by decide)) (by decide) (by decide)
    (by decide) (by decide) (by decide) (by decide) (by decide)
    (by decide) (by decide) (by decide) (by decide) (by decide)


/-- C4: the claim states finalizeEpoch is rejected before the epoch's
endTime.  The code has no endTime check at all (its declared EpochStillActive
error is never raised): on the reachable state mgrProposed, whose epoch 1
ends at t = 1000, the scorer's finalizeEpoch call at t = 20 succeeds and
finalizes the epoch with winner 5. -/
theorem finalizeEpoch_ignores_endTime :
    okMgrEndTime mgrProposed 1 = some 1000 ∧
    okFinFinalized runC4 1 = some true ∧
    okFinWinner runC4 1 = some 5 ∧
    (20 : Nat) < 1000 :=
  ⟨by decide, by decide, by decide, by decide⟩

/-- C5: the claim states that in every reachable state a finalized epoch with
proposals has a winner drawn from its proposers.  finalizeEpoch only checks
the length of the scorer-supplied agents array, not its contents: on the
reachable state mgrProposed (only agent 5 proposed in epoch 1), the scorer
finalizes with agents = [999] and the recorded winner is 999, which is not
among the epoch's proposers [5], while proposalCount = 1 is not 0. -/
theorem finalizeEpoch_winner_not_a_proposer :
    okFinAgents runC5 1 = some [5] ∧
    okFinCount runC5 1 = some 1 ∧
    okFinWinner runC5 1 = some 999 ∧
    okFinFinalized runC5 1 = some true ∧
    ¬ (999 ∈ [5]) :=
  ⟨by decide, by decide, by decide, by decide, by decide⟩

/-- C8: if agents A, B, C (distinct) submitted proposals pa, pb, pc in an
epoch and the scorer finalizes with the matching agent list and scores
[5000, 8000, 6000], the call succeeds, records B as winner with winnerScore
8000, and the pool's feeBps/curveBeta/curveMode afterwards equal exactly B's
proposed tuple. -/
theorem epoch_determinism (m : Mgr) (p : Pool) (ts epochId bn : Nat)
    (A B C : Nat) (pa pb pc : Proposal)
    (hAB : A ≠ B) (hCA : C ≠ A) (hCB : C ≠ B)
    (hfin : (m.epochs epochId).finalized = false)
    (hcount : (m.epochs epochId).proposalCount = 3)
    (hprops : m.epochProposals epochId = [pa, pb, pc])
    (hagentA : pa.agent = A) (hagentB : pb.agent = B)
    (hofA : m.totalScore A + 5000 < W)
    (hofB : m.totalScore B + 8000 < W)
    (hofC : m.totalScore C + 6000 < W)
    (hfee : ¬ pb.feeBps > MAX_FEE_BPS) (hmode : ¬ pb.curveMode > 2)
    (hauth : ¬ (m.selfAddr ≠ p.controller ∧ m.selfAddr ≠ p.epochManager))
    (hne : epochId ≠ m.currentEpochId + 1) :
    ∃ m4 p2,
      Mgr.finalizeEpoch m.scorer ts epochId [A, B, C] [5000, 8000, 6000] bn m p =
        .ok (m4, p2) ∧
      (m4.epochs epochId).winner = B ∧
      (m4.epochs epochId).winnerScore = 8000 ∧
      (m4.epochs epochId).finalized = true ∧
      p2.feeBps = pb.feeBps ∧ p2.curveBeta = pb.curveBeta ∧
      p2.curveMode = pb.curveMode := by
  simp only [Mgr.finalizeEpoch]
  rw [require_pos trivial, seqE_okv]
  rw [require_pos (by simp [hfin]), seqE_okv]
  rw [require_pos (by simp [hcount]), seqE_okv]
  rw [require_pos (by simp), seqE_okv]
  rw [require_pos (by simp [hcount]), seqE_okv]
  rw [show ([A, B, C].zip [5000, 8000, 6000] : List (Nat × Nat)) =
    [(A, 5000), (B, 8000), (C, 6000)] from rfl]
  simp only [Mgr.scoreLoop]
  rw [require_pos hofA, seqE_okv]
  rw [if_pos (show 5000 > 0 by norm_num)]
  rw [require_pos (show mapUpd m.totalScore A (m.totalScore A + 5000) B + 8000 < W by
    simp only [mapUpd]; rw [if_neg (Ne.symm hAB)]; exact hofB), seqE_okv]
  rw [if_pos (show 8000 > 5000 by norm_num)]
  rw [require_pos (show mapUpd (mapUpd m.totalScore A (m.totalScore A + 5000)) B
      (mapUpd m.totalScore A (m.totalScore A + 5000) B + 8000) C + 6000 < W by
    simp only [mapUpd]; rw [if_neg hCB, if_neg hCA]; exact hofC), seqE_okv]
  rw [if_neg (show ¬ 6000 > 8000 by norm_num)]
  rw [seqE_okv]
  dsimp only
  rw [hprops]
  simp only [Mgr.findProposal]
  rw [hagentA, hagentB]
  rw [if_neg hAB, if_pos rfl]
  dsimp only
  rw [updateParameters_ok p m.selfAddr pb.feeBps pb.curveBeta pb.curveMode B bn
    hauth hfee hmode, seqE_okv]
  refine ⟨_, _, rfl, ?_, ?_, ?_, ?_, ?_, ?_⟩ <;>
    simp [Mgr.startNextEpoch, Pool.afterUpdateParameters, mapUpd, hne]

/-- Manager state with three proposals in epoch 1, used by the C8 witness:
agents 5, 6, 7 proposed (50,6000,1), (40,5500,0), (45,7000,2). -/
def mgr3 : Mgr :=
  { selfAddr := 30, owner := 9, agentController := 21, epochDuration := 1000,
    currentEpochId := 1, epochStartTime := 0, scorer := 8,
    epochs := mapUpd (fun _ => {}) 1
      { epochId := 1, startTime := 0, endTime := 1000, winner := 0,
        winnerScore := 0, proposalCount := 3, finalized := false },
    epochProposals := mapUpd (fun _ => []) 1
      [{ agent := 5, feeBps := 50, curveBeta := 6000, curveMode := 1, timestamp := 10 },
       { agent := 6, feeBps := 40, curveBeta := 5500, curveMode := 0, timestamp := 11 },
       { agent := 7, feeBps := 45, curveBeta := 7000, curveMode := 2, timestamp := 12 }],
    epochAgents := mapUpd (fun _ => []) 1 [5, 6, 7] }

/-- C8, witness: on mgr3 the scorer's finalizeEpoch with agents [5,6,7] and
scores [5000,8000,6000] records agent 6 as winner with score 8000 and applies
6's tuple (40, 5500, 0) to the pool. -/
theorem epoch_determinism_witness :
    ∃ m4 p2,
      Mgr.finalizeEpoch mgr3.scorer 2000 1 [5, 6, 7] [5000, 8000, 6000] 0 mgr3 poolM =
        .ok (m4, p2) ∧
      (m4.epochs 1).winner = 6 ∧
      (m4.epochs 1).winnerScore = 8000 ∧
      (m4.epochs 1).finalized = true ∧
      p2.feeBps = 40 ∧ p2.curveBeta = 5500 ∧ p2.curveMode = 0 := by
  obtain ⟨m4, p2, h1, h2, h3, h4, h5, h6, h7⟩ :=
    epoch_determinism mgr3 poolM 2000 1 0 5 6 7
      { agent := 5, feeBps := 50, curveBeta := 6000, curveMode := 1, timestamp := 10 }
      { agent := 6, feeBps := 40, curveBeta := 5500, curveMode := 0, timestamp := 11 }
      { agent := 7, feeBps := 45, curveBeta := 7000, curveMode := 2, timestamp := 12 }
      (by decide) (by decide) (by decide) (by decide) (by decide) (by decide)
      (by decide) (by decide) (by decide) (by decide) (by decide) (by decide)
      (by decide) (by decide) (by decide)
  exact ⟨m4, p2, h1, h2, h3, h4, h5, h6, h7⟩

/-- C9: updateParameters places no bound on curveBeta (any value below 2^256
is accepted and stored, given an authorized caller, feeBps at most 500 and a
valid mode); submitProposal likewise stores any curveBeta unchecked; and
finalizeEpoch applies a winning curveBeta of 2^256 - 1 to the pool. -/
theorem curveBeta_never_bounded :
    (∀ (p : Pool) (sender f β mo ag bn : Nat),
      ¬ (sender ≠ p.controller ∧ sender ≠ p.epochManager) →
      ¬ f > MAX_FEE_BPS → ¬ mo > 2 → β < W →
      Pool.updateParameters sender f β mo ag bn p =
        .ok (p.afterUpdateParameters f β mo bn) ∧
      (p.afterUpdateParameters f β mo bn).curveBeta = β) ∧
    (∀ (mg : Mgr) (activeAgent : Nat → Bool) (sender ts f β mo : Nat),
      ¬ ts ≥ (mg.epochs mg.currentEpochId).endTime →
      ¬ mg.hasProposed mg.currentEpochId sender = true →
      activeAgent sender = true → ¬ f > 500 → ¬ mo > 2 → β < W →
      ∃ m2, Mgr.submitProposal sender ts f β mo activeAgent mg = .ok m2 ∧
        m2.epochProposals mg.currentEpochId =
          mg.epochProposals mg.currentEpochId ++
            [{ agent := sender, feeBps := f, curveBeta := β, curveMode := mo,
               timestamp := ts }]) ∧
    okFinPoolBeta runC9 = some (W - 1) := by
  refine ⟨?_, ?_, by decide⟩
  · intro p sender f β mo ag bn hauth hfee hmode hβ
    exact ⟨updateParameters_ok p sender f β mo ag bn hauth hfee hmode, rfl⟩
  · intro mg activeAgent sender ts f β mo hend hprop hact hfee hmode hβ
    have hadv : Mgr.checkAndAdvanceEpoch ts mg = mg := by
      simp only [Mgr.checkAndAdvanceEpoch]
      rw [if_neg (fun hc => hend hc.1)]
    simp only [Mgr.submitProposal, hadv]
    rw [require_pos hend, seqE_okv]
    rw [require_pos hprop, seqE_okv]
    rw [require_pos hact, seqE_okv]
    rw [require_pos hfee, seqE_okv]
    rw [require_pos hmode, seqE_okv]
    exact ⟨_, rfl, by simp [mapUpd]⟩

/-- C9, witness: the controller stores curveBeta 2^256 - 1 via
updateParameters on poolM, and agent 5 stores curveBeta 2^256 - 1 via
submitProposal on mgrM. -/
theorem curveBeta_never_bounded_witness :
    (Pool.updateParameters 21 50 (W - 1) 1 5 0 poolM =
      .ok (poolM.afterUpdateParameters 50 (W - 1) 1 0)) ∧
    (∃ m2, Mgr.submitProposal 5 10 50 (W - 1) 1 (fun a => a == 5) mgrM = .ok m2 ∧
      m2.epochProposals mgrM.currentEpochId =
        mgrM.epochProposals mgrM.currentEpochId ++
          [{ agent := 5, feeBps := 50, curveBeta := W - 1, curveMode := 1,
             timestamp := 10 }]) := by
  constructor
  · exact (curveBeta_never_bounded.1 poolM 21 50 (W - 1) 1 5 0
      (by decide) (by decide) (by decide) (by decide)).1
  · exact curveBeta_never_bounded.2.1 mgrM (fun a => a == 5) 5 10 50 (W - 1) 1
      (by decide) (by decide) (by decide) (by decide) (by decide) (by decide)

end EvoArena
